import Mathlib

/-!
Verification development for the video-variation generator
(`src/utils/videoProcessorEnhanced.ts`, `src/utils/videoProcessor.ts`,
`src/components/video-spoofer/BatchVideoProcessor.tsx`).

Modelling conventions:
* JavaScript numbers are embedded as exact rationals (`ℚ`).  Every place a
  claim depends on the result of `Math.floor` on a product with the literal
  `0.51`, the distance of the exact product from the nearest integer is at
  least `1/100`, far above double-precision rounding error, so the exact
  rational evaluation agrees with the IEEE-754 evaluation on the claims'
  domains (the single integral case, `100 * 0.51`, also rounds to exactly
  `51.0` as a double).
* `Math.random()` draws are embedded as explicit rational arguments; each
  call site of the processors gets its own field of a `Randoms` record,
  matching the independence of the `Math.random()` calls.
* `Math.PI` is the double-precision constant, an exact rational.
* Asynchronous failure (`throw` / promise rejection) is `Except Err`.
* Wall-clock fields (`processing_time`, object URLs) are not modelled; the
  raw progress fractions the ffmpeg engine reports during one `exec` call
  are abstracted as a list of rationals per invocation.  Every loaded-path
  `processVideo` call registers a fresh `'progress'` listener on the shared
  engine instance and never removes it, so a tick during iteration `i` fires
  the wrappers of all iterations `0..i` in registration order (each with its
  own, for earlier iterations stale, 1-based variation index); the
  webcodecs/canvas tiers return before the listener registration and never
  invoke the callback.  `iterationTrace` models exactly this.
-/

/-- Error values carried by rejected promises. -/
abbrev Err := String

/-- A ranged parameter `{ enabled, min, max }` of the parameter schema. -/
structure RangeParam where
  enabled : Bool
  min : ℚ
  max : ℚ
deriving DecidableEq

/-- A boolean-only parameter `{ enabled }`. -/
structure FlagParam where
  enabled : Bool
deriving DecidableEq

/-- `VideoProcessingParameters` (identical interface in both processor files). -/
structure VideoProcessingParameters where
  videoQuality : ℕ
  videoBitrate : RangeParam
  audioBitrate : RangeParam
  framerate : RangeParam
  saturation : RangeParam
  contrast : RangeParam
  brightness : RangeParam
  gamma : RangeParam
  vignette : RangeParam
  noise : RangeParam
  waveformShift : RangeParam
  pixelShift : RangeParam
  speed : RangeParam
  zoom : RangeParam
  volume : RangeParam
  rotation : RangeParam
  flipHorizontally : FlagParam
  randomPixelSize : FlagParam
  trim : RangeParam
deriving DecidableEq

/-- One `Math.random()` draw per call site of a single `processVideo` /
`buildFilterChain` run; each draw is independent in the source. -/
structure Randoms where
  saturation : ℚ
  contrast : ℚ
  brightness : ℚ
  gamma : ℚ
  noise : ℚ
  rotation : ℚ
  zoom : ℚ
  pixelShift : ℚ
  vignette : ℚ
  waveformShift : ℚ
  randomPixelSize : ℚ
  speed : ℚ
  framerate : ℚ
  trim : ℚ
  videoBitrate : ℚ
  audioBitrate : ℚ
  volume : ℚ
deriving DecidableEq

/-- `getRandomValue(min, max) = Math.random() * (max - min) + min`, with the
`Math.random()` result `r` (in `[0,1)`) made explicit.  The same body appears
in both `VideoProcessor` and `VideoProcessorEnhanced`. -/
def getRandomValue (r lo hi : ℚ) : ℚ := r * (hi - lo) + lo

/-- Left-pad a digit string with zeros to width `d` (used by `toFixed`). -/
def padLeftZeros (d : ℕ) (s : String) : String :=
  String.mk (List.replicate (d - s.length) '0') ++ s

/-- JavaScript `Number.prototype.toFixed(d)`: render `x` with exactly `d`
decimal digits; the ECMAScript algorithm extracts the sign, then picks the
integer `n` minimising `|n / 10^d - x|`, preferring the larger `n` on ties. -/
def toFixed (d : ℕ) (x : ℚ) : String :=
  let sgn := if x < 0 then "-" else ""
  let a := if x < 0 then -x else x
  let n := (Int.floor (a * ((10 ^ d : ℕ) : ℚ) + 1 / 2)).toNat
  let ip := n / 10 ^ d
  let fp := n % 10 ^ d
  if d = 0 then sgn ++ toString ip
  else sgn ++ toString ip ++ "." ++ padLeftZeros d (toString fp)

/-- The double-precision value of `Math.PI`, exactly. -/
def jsPI : ℚ := 884279719003555 / 281474976710656

/- ### Sampled values, one per parameter (enhanced processor) -/

def satValue (p : VideoProcessingParameters) (r : Randoms) : ℚ :=
  getRandomValue r.saturation p.saturation.min p.saturation.max

def contrastValue (p : VideoProcessingParameters) (r : Randoms) : ℚ :=
  getRandomValue r.contrast p.contrast.min p.contrast.max

def brightnessValue (p : VideoProcessingParameters) (r : Randoms) : ℚ :=
  getRandomValue r.brightness p.brightness.min p.brightness.max

def gammaValue (p : VideoProcessingParameters) (r : Randoms) : ℚ :=
  getRandomValue r.gamma p.gamma.min p.gamma.max

def noiseValue (p : VideoProcessingParameters) (r : Randoms) : ℚ :=
  getRandomValue r.noise p.noise.min p.noise.max

def rotationValue (p : VideoProcessingParameters) (r : Randoms) : ℚ :=
  getRandomValue r.rotation p.rotation.min p.rotation.max

def zoomValue (p : VideoProcessingParameters) (r : Randoms) : ℚ :=
  getRandomValue r.zoom p.zoom.min p.zoom.max

def shiftValue (p : VideoProcessingParameters) (r : Randoms) : ℚ :=
  getRandomValue r.pixelShift p.pixelShift.min p.pixelShift.max

def vignetteValue (p : VideoProcessingParameters) (r : Randoms) : ℚ :=
  getRandomValue r.vignette p.vignette.min p.vignette.max

def waveValue (p : VideoProcessingParameters) (r : Randoms) : ℚ :=
  getRandomValue r.waveformShift p.waveformShift.min p.waveformShift.max

def speedValue (p : VideoProcessingParameters) (r : Randoms) : ℚ :=
  getRandomValue r.speed p.speed.min p.speed.max

def fpsValue (p : VideoProcessingParameters) (r : Randoms) : ℚ :=
  getRandomValue r.framerate p.framerate.min p.framerate.max

def trimValue (p : VideoProcessingParameters) (r : Randoms) : ℚ :=
  getRandomValue r.trim p.trim.min p.trim.max

def videoBitrateValue (p : VideoProcessingParameters) (r : Randoms) : ℚ :=
  getRandomValue r.videoBitrate p.videoBitrate.min p.videoBitrate.max

def audioBitrateValue (p : VideoProcessingParameters) (r : Randoms) : ℚ :=
  getRandomValue r.audioBitrate p.audioBitrate.min p.audioBitrate.max

def volumeValue (p : VideoProcessingParameters) (r : Randoms) : ℚ :=
  getRandomValue r.volume p.volume.min p.volume.max

/- ### `VideoProcessorEnhanced.buildFilterChain`, block by block.
Each `def` below is the exact contribution of one `if` block of the source
function to the mutable `filters` / `appliedFilters` arrays; the assembled
function concatenates them in the source's push order. -/

/-- The `eqParams` accumulation: the four color sliders, in source order.
(The same strings are pushed to `appliedFilters`.) -/
def eqParams (p : VideoProcessingParameters) (r : Randoms) : List String :=
  (if p.saturation.enabled then ["saturation=" ++ toFixed 3 (satValue p r)] else [])
    ++ (if p.contrast.enabled then ["contrast=" ++ toFixed 3 (contrastValue p r)] else [])
    ++ (if p.brightness.enabled then ["brightness=" ++ toFixed 3 (brightnessValue p r)] else [])
    ++ (if p.gamma.enabled then ["gamma=" ++ toFixed 3 (gammaValue p r)] else [])

/-- `if (eqParams.length > 0) filters.push('eq=' + eqParams.join(':'))`. -/
def colorFilters (p : VideoProcessingParameters) (r : Randoms) : List String :=
  if eqParams p r = [] then [] else ["eq=" ++ String.intercalate ":" (eqParams p r)]

def noiseStrength (p : VideoProcessingParameters) (r : Randoms) : ℤ :=
  Int.floor (noiseValue p r * 10)

def noiseFilters (p : VideoProcessingParameters) (r : Randoms) : List String :=
  if p.noise.enabled then
    ["noise=alls=" ++ toString (noiseStrength p r) ++ ":allf=t"] else []

def noiseApplied (p : VideoProcessingParameters) (r : Randoms) : List String :=
  if p.noise.enabled then ["noise=" ++ toString (noiseStrength p r)] else []

def rotationFilters (p : VideoProcessingParameters) (r : Randoms) : List String :=
  if p.rotation.enabled then
    ["rotate=" ++ toFixed 4 (rotationValue p r * jsPI / 180)] else []

def rotationApplied (p : VideoProcessingParameters) (r : Randoms) : List String :=
  if p.rotation.enabled then
    ["rotate=" ++ toFixed 2 (rotationValue p r) ++ "°"] else []

def flipFilters (p : VideoProcessingParameters) : List String :=
  if p.flipHorizontally.enabled then ["hflip"] else []

def zoomFilters (p : VideoProcessingParameters) (r : Randoms) : List String :=
  if p.zoom.enabled then
    if zoomValue p r > 0 then
      ["scale=iw*" ++ toFixed 3 (1 + zoomValue p r) ++ ":ih*" ++ toFixed 3 (1 + zoomValue p r)]
    else []
  else []

def zoomApplied (p : VideoProcessingParameters) (r : Randoms) : List String :=
  if p.zoom.enabled then
    if zoomValue p r > 0 then ["zoom=" ++ toFixed 3 (zoomValue p r)] else []
  else []

def shiftPixels (p : VideoProcessingParameters) (r : Randoms) : ℤ :=
  Int.floor (shiftValue p r * 5)

def pixelShiftFilters (p : VideoProcessingParameters) (r : Randoms) : List String :=
  if p.pixelShift.enabled then
    if shiftValue p r > 0 then
      ["crop=iw-" ++ toString (shiftPixels p r) ++ ":ih-" ++ toString (shiftPixels p r)
        ++ ":" ++ toString (Int.floor ((shiftPixels p r : ℚ) / 2))
        ++ ":" ++ toString (Int.floor ((shiftPixels p r : ℚ) / 2))]
    else []
  else []

def pixelShiftApplied (p : VideoProcessingParameters) (r : Randoms) : List String :=
  if p.pixelShift.enabled then
    if shiftValue p r > 0 then ["pixelShift=" ++ toString (shiftPixels p r) ++ "px"] else []
  else []

def vignetteFilters (p : VideoProcessingParameters) (r : Randoms) : List String :=
  if p.vignette.enabled then
    if vignetteValue p r > 0 then ["vignette=angle=PI/4:eval=frame"] else []
  else []

def vignetteApplied (p : VideoProcessingParameters) (r : Randoms) : List String :=
  if p.vignette.enabled then
    if vignetteValue p r > 0 then ["vignette=" ++ toFixed 3 (vignetteValue p r)] else []
  else []

def waveShift (p : VideoProcessingParameters) (r : Randoms) : ℤ :=
  Int.floor (waveValue p r * 3)

def waveformFilters (p : VideoProcessingParameters) (r : Randoms) : List String :=
  if p.waveformShift.enabled then
    if waveValue p r > 0 then
      ["geq=r=\x27r(X+" ++ toString (waveShift p r) ++ ",Y)\x27:g=\x27g(X,Y+"
        ++ toString (waveShift p r) ++ ")\x27:b=\x27b(X,Y)\x27"]
    else []
  else []

def waveformApplied (p : VideoProcessingParameters) (r : Randoms) : List String :=
  if p.waveformShift.enabled then
    if waveValue p r > 0 then ["waveformShift=" ++ toFixed 3 (waveValue p r)] else []
  else []

/-- `const baseHeight = 720 + Math.floor(Math.random() * 360)`. -/
def baseHeight (r : Randoms) : ℤ := 720 + Int.floor (r.randomPixelSize * 360)

/-- `Math.floor(baseHeight * 9 / 16 / 2) * 2`. -/
def rpsWidth (r : Randoms) : ℤ := Int.floor ((baseHeight r : ℚ) * 9 / 16 / 2) * 2

/-- `Math.floor(baseHeight / 2) * 2`. -/
def rpsHeight (r : Randoms) : ℤ := Int.floor ((baseHeight r : ℚ) / 2) * 2

def randomPixelSizeFilters (p : VideoProcessingParameters) (r : Randoms) : List String :=
  if p.randomPixelSize.enabled then
    ["scale=" ++ toString (rpsWidth r) ++ ":" ++ toString (rpsHeight r)] else []

def randomPixelSizeApplied (p : VideoProcessingParameters) (r : Randoms) : List String :=
  if p.randomPixelSize.enabled then
    ["randomSize=" ++ toString (rpsWidth r) ++ "x" ++ toString (rpsHeight r)] else []

def speedFilters (p : VideoProcessingParameters) (r : Randoms) : List String :=
  if p.speed.enabled then
    ["setpts=" ++ toFixed 3 (1 / speedValue p r) ++ "*PTS"] else []

def speedApplied (p : VideoProcessingParameters) (r : Randoms) : List String :=
  if p.speed.enabled then ["speed=" ++ toFixed 3 (speedValue p r) ++ "x"] else []

def framerateFilters (p : VideoProcessingParameters) (r : Randoms) : List String :=
  if p.framerate.enabled then ["fps=" ++ toString (Int.floor (fpsValue p r))] else []

def framerateApplied (p : VideoProcessingParameters) (r : Randoms) : List String :=
  if p.framerate.enabled then ["fps=" ++ toString (Int.floor (fpsValue p r))] else []

/-- `VideoProcessorEnhanced.buildFilterChain`: returns
`(videoFilters, appliedFilters)`; the blocks above are concatenated in the
source's push order (color `eq`, noise, rotation, flip, zoom, pixel-shift
crop, vignette, waveform `geq`, random 9:16 resize, speed `setpts`, `fps`). -/
def buildFilterChain (p : VideoProcessingParameters) (r : Randoms) :
    List String × List String :=
  (colorFilters p r ++ noiseFilters p r ++ rotationFilters p r ++ flipFilters p
     ++ zoomFilters p r ++ pixelShiftFilters p r ++ vignetteFilters p r
     ++ waveformFilters p r ++ randomPixelSizeFilters p r ++ speedFilters p r
     ++ framerateFilters p r,
   eqParams p r ++ noiseApplied p r ++ rotationApplied p r ++ flipFilters p
     ++ zoomApplied p r ++ pixelShiftApplied p r ++ vignetteApplied p r
     ++ waveformApplied p r ++ randomPixelSizeApplied p r ++ speedApplied p r
     ++ framerateApplied p r)

/- ### `VideoProcessor.buildFilterString` (the legacy processor), block by
block.  Note the differences from the enhanced builder: separate `eq=`
directives per color slider (`toFixed(2)`), noise scaled by 100, no zero-guard
on the zoom scale, and no waveform / random-size / speed / fps entries. -/

def legacyFilters (p : VideoProcessingParameters) (r : Randoms) : List String :=
  (if p.saturation.enabled then ["eq=saturation=" ++ toFixed 2 (satValue p r)] else [])
    ++ (if p.contrast.enabled then ["eq=contrast=" ++ toFixed 2 (contrastValue p r)] else [])
    ++ (if p.brightness.enabled then ["eq=brightness=" ++ toFixed 2 (brightnessValue p r)] else [])
    ++ (if p.gamma.enabled then ["eq=gamma=" ++ toFixed 2 (gammaValue p r)] else [])
    ++ (if p.noise.enabled then
          ["noise=alls=" ++ toString (Int.floor (noiseValue p r * 100)) ++ ":allf=t"] else [])
    ++ (if p.rotation.enabled then
          ["rotate=" ++ toFixed 4 (rotationValue p r * jsPI / 180)] else [])
    ++ (if p.flipHorizontally.enabled then ["hflip"] else [])
    ++ (if p.zoom.enabled then
          ["scale=iw*" ++ toFixed 2 (1 + zoomValue p r) ++ ":ih*" ++ toFixed 2 (1 + zoomValue p r)]
        else [])
    ++ (if p.pixelShift.enabled then
          if Int.floor (shiftValue p r * 10) > 0 then
            ["crop=iw-" ++ toString (Int.floor (shiftValue p r * 10))
              ++ ":ih-" ++ toString (Int.floor (shiftValue p r * 10))
              ++ ":" ++ toString (Int.floor ((Int.floor (shiftValue p r * 10) : ℚ) / 2))
              ++ ":" ++ toString (Int.floor ((Int.floor (shiftValue p r * 10) : ℚ) / 2))]
          else []
        else [])
    ++ (if p.vignette.enabled then ["vignette=PI/4+" ++ toFixed 2 (vignetteValue p r)] else [])

/-- `VideoProcessor.buildFilterString`: the filters joined with `','`
(empty string when no filter fired). -/
def buildFilterString (p : VideoProcessingParameters) (r : Randoms) : String :=
  String.intercalate "," (legacyFilters p r)

/- ### Quality → compression (`-crf`) mapping and the enhanced argument list -/

/-- `51 - Math.floor(params.videoQuality * 0.51)` (both processors,
`videoProcessorEnhanced.ts` line 259 and `videoProcessor.ts` line 150). -/
def crf (q : ℕ) : ℤ := 51 - Int.floor ((q : ℚ) * (51 / 100))

/-- The `appliedFilters.push` from the volume block of
`VideoProcessorEnhanced.processVideo`. -/
def volumeApplied (p : VideoProcessingParameters) (r : Randoms) : List String :=
  if p.volume.enabled then ["volume=" ++ toFixed 3 (volumeValue p r)] else []

/-- The ffmpeg argument list assembled by `VideoProcessorEnhanced.processVideo`
(lines 243-281), in push order. -/
def processArgs (p : VideoProcessingParameters) (r : Randoms) : List String :=
  ["-i", "input.mp4"]
    ++ (if p.trim.enabled then ["-ss", toFixed 2 (trimValue p r)] else [])
    ++ (if (buildFilterChain p r).1 = [] then []
        else ["-vf", String.intercalate "," (buildFilterChain p r).1])
    ++ ["-crf", toString (crf p.videoQuality)]
    ++ (if p.videoBitrate.enabled then
          ["-b:v", toString (Int.floor (videoBitrateValue p r)) ++ "k"] else [])
    ++ (if p.audioBitrate.enabled then
          ["-b:a", toString (Int.floor (audioBitrateValue p r)) ++ "k"] else [])
    ++ (if p.volume.enabled then ["-af", "volume=" ++ toFixed 3 (volumeValue p r)] else [])
    ++ ["-c:v", "libvpx-vp9", "-c:a", "libopus", "output.webm"]

/- ### Engine state, adapters, and the variation orchestrator -/

/-- An uploaded file; only its byte size is observable to the claims. -/
structure VFile where
  size : ℕ
deriving DecidableEq

/-- `ProcessingResult` of the enhanced processor.  `output_url` and the
wall-clock `processing_time` are not modelled. -/
structure ProcessingResult where
  applied_filters : List String
  size : ℕ
  format : String
  duration : ℚ
deriving DecidableEq

/-- Mutable state of the `VideoProcessorEnhanced` singleton that the
processing paths read. -/
structure EngineState where
  isLoaded : Bool
  supportsWebCodecs : Bool
deriving DecidableEq

/-- Capability set exposed by the `capabilities` getter. -/
structure Capabilities where
  ffmpeg : Bool
  webcodecs : Bool
  canvas : Bool
deriving DecidableEq

/-- `get capabilities()`: `{ ffmpeg: this.isLoaded, webcodecs:
this.supportsWebCodecs, canvas: true }`. -/
def capabilities (st : EngineState) : Capabilities :=
  { ffmpeg := st.isLoaded, webcodecs := st.supportsWebCodecs, canvas := true }

/-- Reading the capability getter as a state transition: the getter returns
the capability set and leaves the engine state untouched. -/
def readCapabilities (st : EngineState) : Capabilities × EngineState :=
  (capabilities st, st)

/-- `VideoProcessorEnhanced.processWithWebCodecs`: pass-through of the input
bytes, marked `webcodecs-fallback`. -/
def processWithWebCodecs (file : VFile) : ProcessingResult :=
  { applied_filters := ["webcodecs-fallback"], size := file.size
    format := "original", duration := 0 }

/-- `VideoProcessorEnhanced.processWithCanvas`: pass-through of the input
bytes, marked `canvas-fallback`. -/
def processWithCanvas (file : VFile) : ProcessingResult :=
  { applied_filters := ["canvas-fallback"], size := file.size
    format := "original", duration := 0 }

/-- `VideoProcessorEnhanced.processVideo`.  `ex` abstracts the outcome of the
`ffmpeg.exec` + `readFile` round-trip of the loaded path: either the rejection
it throws or the byte size of the produced output. -/
def processVideo (st : EngineState) (ex : Except Err ℕ) (file : VFile)
    (p : VideoProcessingParameters) (r : Randoms) : Except Err ProcessingResult :=
  if st.isLoaded then
    match ex with
    | Except.error e => Except.error e
    | Except.ok outSize =>
        Except.ok { applied_filters := (buildFilterChain p r).2 ++ volumeApplied p r
                    size := outSize, format := "webm", duration := 0 }
  else if st.supportsWebCodecs then Except.ok (processWithWebCodecs file)
  else Except.ok (processWithCanvas file)

/-- One engine progress tick during iteration `i` (0-based): `processVideo`
registers a fresh `'progress'` listener on the shared engine at every
loaded-path call (`ffmpeg.on('progress', ...)`) and never removes it, so a
tick fires the wrappers of all iterations `0..i` in registration order, each
invoking `onProgress(j + 1, progress * 100)` with its own — for `j < i`
stale — 1-based variation index. -/
def progressTick (i : ℕ) (pr : ℚ) : List (ℕ × ℚ) :=
  (List.range (i + 1)).map (fun j => (j + 1, pr * 100))

/-- All invocations of the current call's progress callback made during
iteration `i`: one `progressTick` per engine tick on the loaded path; the
webcodecs/canvas tiers return before the listener registration and never
invoke the callback. -/
def iterationTrace (st : EngineState) (events : ℕ → List ℚ) (i : ℕ) :
    List (ℕ × ℚ) :=
  if st.isLoaded then ((events i).map (progressTick i)).flatten else []

/-- The loop body of `VideoProcessorEnhanced.generateVariations`, started at
iteration `i` with `m` iterations left.  `execs j`, `rs j` are the engine
outcome and the random draws of iteration `j`; `events j` are the raw
progress fractions the engine reports during iteration `j`, each delivered
through every listener registered so far (see `iterationTrace`). -/
def genFrom (st : EngineState) (file : VFile) (p : VideoProcessingParameters)
    (execs : ℕ → Except Err ℕ) (rs : ℕ → Randoms) (events : ℕ → List ℚ) :
    ℕ → ℕ → Except Err (List ProcessingResult) × List (ℕ × ℚ)
  | _, 0 => (Except.ok [], [])
  | i, m + 1 =>
    match processVideo st (execs i) file p (rs i) with
    | Except.error e => (Except.error e, iterationTrace st events i)
    | Except.ok res =>
        let rest := genFrom st file p execs rs events (i + 1) m
        (rest.1.map (fun l => res :: l),
         iterationTrace st events i ++ rest.2)

/-- `VideoProcessorEnhanced.generateVariations(file, params, n, onProgress)`:
the sequential loop, returning the collected results (or the first rejection)
together with the full trace of `onProgress(variationIndex, percent)` calls. -/
def generateVariations (st : EngineState) (file : VFile)
    (p : VideoProcessingParameters) (execs : ℕ → Except Err ℕ)
    (rs : ℕ → Randoms) (events : ℕ → List ℚ) (n : ℕ) :
    Except Err (List ProcessingResult) × List (ℕ × ℚ) :=
  genFrom st file p execs rs events 0 n

/- ### The batch queue (`BatchVideoProcessor.processQueue`) -/

inductive QueueStatus where
  | pending
  | processing
  | completed
  | error
deriving DecidableEq

/-- A batch `QueueItem`; a variation blob is modelled by its byte size.
The intermediate `onProgress` writes to `progress` are omitted; they touch
only the `progress` field, never `status` or `variations`. -/
structure QueueItem where
  id : String
  fileSize : ℕ
  status : QueueStatus
  progress : ℚ
  variations : List ℕ
deriving DecidableEq

/-- `setQueue(prev.map(q => q.id === id ? f(q) : q))`. -/
def setItem (qs : List QueueItem) (id : String) (f : QueueItem → QueueItem) :
    List QueueItem :=
  qs.map (fun q => if q.id = id then f q else q)

/-- One iteration of the `processQueue` loop for queue entry `item` with
per-item outcome `o` (the resolution of `generateVariations`): mark the item
`processing`, then `completed` with its variations, or `error` on rejection;
the `ffmpegLoaded = false` branch simulates and completes with copies of the
original file. -/
def processItem (loaded : Bool) (numberOfVariations : ℕ)
    (o : Except Err (List ℕ)) (st : List QueueItem) (item : QueueItem) :
    List QueueItem :=
  let st1 := setItem st item.id
    (fun q => { q with status := QueueStatus.processing, progress := 0 })
  if loaded then
    match o with
    | Except.ok vs =>
        setItem st1 item.id
          (fun q =>
            { q with status := QueueStatus.completed, variations := vs, progress := 100 })
    | Except.error _ =>
        setItem st1 item.id (fun q => { q with status := QueueStatus.error })
  else
    setItem st1 item.id
      (fun q =>
        { q with
            status := QueueStatus.completed
            variations := List.replicate numberOfVariations item.fileSize
            progress := 100 })

/-- The `for (let i = 0; i < queue.length; i++)` loop of `processQueue`,
walking the snapshot of the queue taken at loop entry while updating the live
state; the `try/catch` around each item keeps the loop going after a failure. -/
def processQueueFrom (loaded : Bool) (n : ℕ) (outcomes : ℕ → Except Err (List ℕ)) :
    List QueueItem → ℕ → List QueueItem → List QueueItem
  | [], _, st => st
  | item :: rest, i, st =>
      processQueueFrom loaded n outcomes rest (i + 1)
        (processItem loaded n (outcomes i) st item)

/-- `BatchVideoProcessor.processQueue` with `outcomes i` the resolution of the
`i`-th item's `generateVariations` call. -/
def processQueue (loaded : Bool) (n : ℕ) (outcomes : ℕ → Except Err (List ℕ))
    (queue : List QueueItem) : List QueueItem :=
  processQueueFrom loaded n outcomes queue 0 queue

/-- The net effect of one loaded-path loop iteration on the matching item:
`completed`/`variations`/`progress=100` on success, `error` (with the
`progress=0` written at iteration start) on failure. -/
def applyOutcome (o : Except Err (List ℕ)) (q : QueueItem) : QueueItem :=
  match o with
  | Except.ok vs =>
      { q with status := QueueStatus.completed, progress := 100, variations := vs }
  | Except.error _ => { q with status := QueueStatus.error, progress := 0 }

/-- Cumulative effect of the remaining loop iterations on one queue element
(the loop touches an element exactly when the snapshot entry's id matches). -/
def applyAll (outcomes : ℕ → Except Err (List ℕ)) :
    List QueueItem → ℕ → QueueItem → QueueItem
  | [], _, q => q
  | item :: rest, i, q =>
      applyAll outcomes rest (i + 1)
        (if q.id = item.id then applyOutcome (outcomes i) q else q)

/- ### Concrete instances used by counterexamples and witnesses -/

/-- The hard-coded parameter defaults created at dashboard mount
(`VideoSpoofer`'s initial `useState` value). -/
def defaultParams : VideoProcessingParameters :=
  { videoQuality := 80
    videoBitrate := { enabled := false, min := 1000, max := 15000 }
    audioBitrate := { enabled := false, min := 96, max := 128 }
    framerate := { enabled := false, min := 24, max := 60 }
    saturation := { enabled := false, min := 1, max := 13/10 }
    contrast := { enabled := false, min := 1/2, max := 3/2 }
    brightness := { enabled := false, min := -3/10, max := 3/10 }
    gamma := { enabled := false, min := 7/10, max := 13/10 }
    vignette := { enabled := false, min := 0, max := 1 }
    noise := { enabled := false, min := 0, max := 1 }
    waveformShift := { enabled := false, min := 0, max := 1 }
    pixelShift := { enabled := false, min := 0, max := 1 }
    speed := { enabled := false, min := 9/10, max := 6/5 }
    zoom := { enabled := false, min := 0, max := 2 }
    volume := { enabled := false, min := 9/10, max := 6/5 }
    rotation := { enabled := false, min := -10, max := 10 }
    flipHorizontally := { enabled := false }
    randomPixelSize := { enabled := false }
    trim := { enabled := false, min := 1/5, max := 1 } }

/-- A fixed draw of all random values (all zero). -/
def r0 : Randoms :=
  { saturation := 0, contrast := 0, brightness := 0, gamma := 0, noise := 0
    rotation := 0, zoom := 0, pixelShift := 0, vignette := 0, waveformShift := 0
    randomPixelSize := 0, speed := 0, framerate := 0, trim := 0
    videoBitrate := 0, audioBitrate := 0, volume := 0 }

/-- Parameters with an enabled zero-width zoom range (`min = max = 0`). -/
def zeroZoomParams : VideoProcessingParameters :=
  { defaultParams with zoom := { enabled := true, min := 0, max := 0 } }

/-- Parameters with two enabled color sliders (degenerate point ranges). -/
def twoColorParams : VideoProcessingParameters :=
  { defaultParams with
      saturation := { enabled := true, min := 1, max := 1 }
      contrast := { enabled := true, min := 2, max := 2 } }

/-- Parameters with saturation and vignette enabled over `[0, 1]`. -/
def satVigParams : VideoProcessingParameters :=
  { defaultParams with
      saturation := { enabled := true, min := 0, max := 1 }
      vignette := { enabled := true, min := 0, max := 1 } }

/-- Parameters with saturation and rotation enabled (point ranges). -/
def satRotParams : VideoProcessingParameters :=
  { defaultParams with
      saturation := { enabled := true, min := 1, max := 1 }
      rotation := { enabled := true, min := 90, max := 90 } }

def rSatA : Randoms := { r0 with saturation := 1/10000, vignette := 1/4 }

def rSatB : Randoms := { r0 with saturation := 2/10000, vignette := 1/2 }

/-- Engine state with the full engine unavailable and no platform codec:
the canvas tier. -/
def canvasOnlyState : EngineState := { isLoaded := false, supportsWebCodecs := false }

/-- Engine state after a successful full-engine initialization. -/
def loadedState : EngineState := { isLoaded := true, supportsWebCodecs := true }

/-- A sample two-element batch queue. -/
def sampleQueue : List QueueItem :=
  [ { id := "a", fileSize := 10, status := QueueStatus.pending, progress := 0, variations := [] },
    { id := "b", fileSize := 20, status := QueueStatus.pending, progress := 0, variations := [] } ]

/-- Per-item outcomes where the first queue item's processing rejects. -/
def sampleOutcomes : ℕ → Except Err (List ℕ)
  | 0 => Except.error "boom"
  | _ => Except.ok [7, 7]

/-- Engine outcomes where iteration 0 rejects. -/
def failingExecs : ℕ → Except Err ℕ
  | 0 => Except.error "boom"
  | _ => Except.ok 42

def sampleFile : VFile := { size := 1234 }

def constRandoms : ℕ → Randoms := fun _ => r0

def sampleEvents : ℕ → List ℚ := fun _ => [0, 1/2, 1]

/-- Engine outcomes where every iteration's exec succeeds with a 42-byte
output. -/
def okExecs : ℕ → Except Err ℕ := fun _ => Except.ok 42

/-- The result every loaded-path iteration produces for the default (all
disabled) parameters and a 42-byte engine output. -/
def sampleLoadedResult : ProcessingResult :=
  { applied_filters := (buildFilterChain defaultParams r0).2 ++ volumeApplied defaultParams r0
    size := 42, format := "webm", duration := 0 }

/-- `p` with the zoom parameter switched off (range kept). -/
def disableZoom (p : VideoProcessingParameters) : VideoProcessingParameters :=
  { p with zoom := { enabled := false, min := p.zoom.min, max := p.zoom.max } }

/- ### Helper lemmas -/

/-- Appending to a fixed string on the left is left-cancellative. -/
lemma string_append_left_cancel {a b c : String} (h : a ++ b = a ++ c) : b = c := by
  have hd : (a ++ b).data = (a ++ c).data := congrArg String.data h
  rw [String.data_append, String.data_append] at hd
  exact String.ext (List.append_cancel_left hd)

/-- The `eqParams` accumulator is nonempty exactly when one of the four color
sliders is enabled. -/
lemma eqParams_ne_nil_iff (p : VideoProcessingParameters) (r : Randoms) :
    eqParams p r ≠ []
      ↔ (p.saturation.enabled = true ∨ p.contrast.enabled = true
          ∨ p.brightness.enabled = true ∨ p.gamma.enabled = true) := by
  unfold eqParams
  cases hs : p.saturation.enabled <;> cases hc : p.contrast.enabled
    <;> cases hb : p.brightness.enabled <;> cases hg : p.gamma.enabled <;> simp

/-- Exact arithmetic for the quality mapping: the floor of `q * 0.51` is the
natural division `q * 51 / 100`. -/
lemma crf_eq_nat (q : ℕ) : crf q = 51 - ((q * 51) / 100 : ℕ) := by
  unfold crf
  have h1 : ((q : ℚ) * (51 / 100)) = (((q * 51 : ℕ) : ℚ)) / ((100 : ℕ) : ℚ) := by
    push_cast; ring
  rw [h1, ← Int.natCast_floor_eq_floor (by positivity), Nat.floor_div_eq_div]

/-- Unfolding `genFrom` when every iteration in range succeeds: the results
are collected in invocation order and the progress trace is the
concatenation of the per-iteration blocks. -/
lemma genFrom_ok_eq (st : EngineState) (file : VFile) (p : VideoProcessingParameters)
    (execs : ℕ → Except Err ℕ) (rs : ℕ → Randoms) (events : ℕ → List ℚ)
    (f : ℕ → ProcessingResult) :
    ∀ (m i : ℕ),
      (∀ j, j < m → processVideo st (execs (i + j)) file p (rs (i + j)) = Except.ok (f (i + j))) →
      genFrom st file p execs rs events i m =
        (Except.ok ((List.range m).map (fun j => f (i + j))),
         ((List.range m).map (fun j => iterationTrace st events (i + j))).flatten) := by
  intro m
  induction m with
  | zero => intro i h; simp [genFrom]
  | succ m ih =>
    intro i h
    have h0 : processVideo st (execs i) file p (rs i) = Except.ok (f i) := by
      simpa using h 0 (Nat.succ_pos m)
    have hrest := ih (i + 1) (fun j hj => by
      have hh := h (j + 1) (by omega)
      rwa [show i + (j + 1) = i + 1 + j by omega] at hh)
    have e1 : (List.range (m + 1)).map (fun j => f (i + j))
        = f i :: (List.range m).map (fun j => f (i + 1 + j)) := by
      rw [List.range_succ_eq_map, List.map_cons, List.map_map, Nat.add_zero]
      refine congrArg (f i :: ·) (List.map_congr_left (fun a _ => ?_))
      exact congrArg f (by omega)
    have e2 : (List.range (m + 1)).map (fun j => iterationTrace st events (i + j))
        = iterationTrace st events i
            :: (List.range m).map (fun j => iterationTrace st events (i + 1 + j)) := by
      rw [List.range_succ_eq_map, List.map_cons, List.map_map, Nat.add_zero]
      refine congrArg _ (List.map_congr_left (fun a _ => ?_))
      simp only [Function.comp_apply]
      rw [show i + Nat.succ a = i + 1 + a by omega]
    rw [genFrom]
    rw [h0, hrest, e1, e2]
    simp [Except.map, List.flatten]

/-- Unfolding `genFrom` when iteration `k` fails after `k` successes: the
whole call resolves to that error and no partial result list is returned. -/
lemma genFrom_error_eq (st : EngineState) (file : VFile) (p : VideoProcessingParameters)
    (execs : ℕ → Except Err ℕ) (rs : ℕ → Randoms) (events : ℕ → List ℚ) (e : Err) :
    ∀ (k m i : ℕ),
      (∀ j, j < k → ∃ res, processVideo st (execs (i + j)) file p (rs (i + j)) = Except.ok res) →
      processVideo st (execs (i + k)) file p (rs (i + k)) = Except.error e →
      k < m →
      (genFrom st file p execs rs events i m).1 = Except.error e := by
  intro k
  induction k with
  | zero =>
    intro m i hok herr hk
    cases m with
    | zero => omega
    | succ m' =>
      have herr' : processVideo st (execs i) file p (rs i) = Except.error e := by
        simpa using herr
      simp [genFrom, herr']
  | succ k ih =>
    intro m i hok herr hk
    cases m with
    | zero => omega
    | succ m' =>
      obtain ⟨res, hres⟩ := hok 0 (Nat.succ_pos k)
      have hres' : processVideo st (execs i) file p (rs i) = Except.ok res := by
        simpa using hres
      have hrec := ih m' (i + 1)
        (fun j hj => by
          obtain ⟨r2, hr2⟩ := hok (j + 1) (by omega)
          exact ⟨r2, by rwa [show i + (j + 1) = i + 1 + j by omega] at hr2⟩)
        (by rwa [show i + (k + 1) = i + 1 + k by omega] at herr)
        (by omega)
      rw [genFrom]
      rw [hres']
      simp only [hrec, Except.map]

/-- `applyOutcome` never changes an item's id. -/
lemma applyOutcome_id (o : Except Err (List ℕ)) (q : QueueItem) :
    (applyOutcome o q).id = q.id := by
  cases o <;> rfl

/-- In loaded mode, one loop iteration is a pointwise map over the queue:
the matching ids receive `applyOutcome`, the rest are untouched. -/
lemma processItem_true_eq (n : ℕ) (o : Except Err (List ℕ))
    (st : List QueueItem) (item : QueueItem) :
    processItem true n o st item
      = st.map (fun q => if q.id = item.id then applyOutcome o q else q) := by
  cases o with
  | ok vs =>
    simp only [processItem, setItem, if_true, List.map_map]
    refine List.map_congr_left (fun q _ => ?_)
    by_cases hq : q.id = item.id <;> simp [Function.comp, hq, applyOutcome]
  | error e =>
    simp only [processItem, setItem, if_true, List.map_map]
    refine List.map_congr_left (fun q _ => ?_)
    by_cases hq : q.id = item.id <;> simp [Function.comp, hq, applyOutcome]

/-- The whole loaded-mode loop is the pointwise accumulation `applyAll` of
its iterations over the snapshot, element by element. -/
lemma processQueueFrom_true_eq (n : ℕ) (outcomes : ℕ → Except Err (List ℕ)) :
    ∀ (snap : List QueueItem) (i : ℕ) (st : List QueueItem),
      processQueueFrom true n outcomes snap i st
        = st.map (fun q => applyAll outcomes snap i q) := by
  intro snap
  induction snap with
  | nil =>
    intro i st
    simp [processQueueFrom, applyAll]
  | cons item rest ih =>
    intro i st
    rw [processQueueFrom, processItem_true_eq, ih, List.map_map]
    rfl

/-- Iterations whose snapshot entries all carry a different id leave an
element untouched. -/
lemma applyAll_of_ne (outcomes : ℕ → Except Err (List ℕ)) :
    ∀ (snap : List QueueItem) (i : ℕ) (q : QueueItem),
      (∀ x ∈ snap, x.id ≠ q.id) → applyAll outcomes snap i q = q := by
  intro snap
  induction snap with
  | nil => intro i q _; rfl
  | cons item rest ih =>
    intro i q h
    have hne : ¬(q.id = item.id) := fun hh =>
      (h item (List.mem_cons_self _ _)) hh.symm
    rw [applyAll, if_neg hne]
    exact ih (i + 1) q (fun x hx => h x (List.mem_cons_of_mem _ hx))

/-- With pairwise-distinct ids, the accumulated loop effect on the element
sitting at snapshot position `idx` is exactly one `applyOutcome` with that
position's outcome. -/
lemma applyAll_eval (outcomes : ℕ → Except Err (List ℕ)) :
    ∀ (snap : List QueueItem) (idx i : ℕ) (q q₀ : QueueItem),
      (snap.map QueueItem.id).Nodup → snap[idx]? = some q₀ → q.id = q₀.id →
      applyAll outcomes snap i q = applyOutcome (outcomes (i + idx)) q := by
  intro snap
  induction snap with
  | nil =>
    intro idx i q q₀ _ hget _
    simp at hget
  | cons item rest ih =>
    intro idx i q q₀ hnd hget hid
    have hnd' : item.id ∉ rest.map QueueItem.id ∧ (rest.map QueueItem.id).Nodup := by
      rw [List.map_cons, List.nodup_cons] at hnd
      exact hnd
    cases idx with
    | zero =>
      have hitem : item = q₀ := by simpa using hget
      subst hitem
      rw [applyAll, if_pos hid]
      have hnotin : ∀ x ∈ rest, x.id ≠ (applyOutcome (outcomes i) q).id := by
        intro x hx hcontra
        rw [applyOutcome_id, hid] at hcontra
        exact hnd'.1 (by rw [← hcontra]; exact List.mem_map_of_mem _ hx)
      rw [applyAll_of_ne outcomes rest (i + 1) _ hnotin, Nat.add_zero]
    | succ idx' =>
      have hget' : rest[idx']? = some q₀ := by simpa using hget
      have hne : ¬(q.id = item.id) := by
        intro hh
        have hq0mem : q₀ ∈ rest := List.getElem?_mem hget'
        apply hnd'.1
        rw [show item.id = q₀.id by rw [← hh, hid]]
        exact List.mem_map_of_mem _ hq0mem
      rw [applyAll, if_neg hne]
      rw [ih idx' (i + 1) q q₀ hnd'.2 hget' hid,
        show i + 1 + idx' = i + (idx' + 1) by omega]

/-- C1 (corrected): the `-crf` value passed to the engine is
`51 - floor(videoQuality * 0.51)`; on the domain `[1, 100]` this equals
`51 - videoQuality * 51 / 100` (natural division), stays within the valid
`[0, 51]` compression range, and the worked examples are `100 ↦ 0`, `1 ↦ 51`
and `80 ↦ 11` (not `50` and `10` as the claim stated). -/
theorem c1_quality_to_compression (q : ℕ) (hq1 : 1 ≤ q) (hq2 : q ≤ 100)
    (p : VideoProcessingParameters) (r : Randoms) :
    crf q = 51 - ((q * 51) / 100 : ℕ)
      ∧ (0 ≤ crf q ∧ crf q ≤ 51)
      ∧ crf 100 = 0 ∧ crf 1 = 51 ∧ crf 80 = 11
      ∧ ["-crf", toString (crf p.videoQuality)] <:+: processArgs p r := by
  have hbound : (q * 51) / 100 ≤ 51 := by omega
  refine ⟨crf_eq_nat q, ⟨?_, ?_⟩, by with_unfolding_all decide,
    by with_unfolding_all decide, by with_unfolding_all decide, ?_⟩
  · rw [crf_eq_nat q]; push_cast; omega
  · rw [crf_eq_nat q]; push_cast; omega
  · have h := List.infix_append
      (["-i", "input.mp4"]
        ++ (if p.trim.enabled then ["-ss", toFixed 2 (trimValue p r)] else [])
        ++ (if (buildFilterChain p r).1 = [] then []
            else ["-vf", String.intercalate "," (buildFilterChain p r).1]))
      ["-crf", toString (crf p.videoQuality)]
      ((if p.videoBitrate.enabled then
          ["-b:v", toString (Int.floor (videoBitrateValue p r)) ++ "k"] else [])
        ++ (if p.audioBitrate.enabled then
              ["-b:a", toString (Int.floor (audioBitrateValue p r)) ++ "k"] else [])
        ++ (if p.volume.enabled then
              ["-af", "volume=" ++ toFixed 3 (volumeValue p r)] else [])
        ++ ["-c:v", "libvpx-vp9", "-c:a", "libopus", "output.webm"])
    simpa [processArgs, List.append_assoc] using h

/-- C1, counterexample to the claim as stated: the code maps quality `1` to
compression `51` (not `50`) and quality `80` to `11` (not `10`). -/
theorem c1_counterexample :
    crf 1 = 51 ∧ crf 80 = 11 ∧ ¬(crf 1 = 50 ∧ crf 80 = 10) := by
  with_unfolding_all decide

/-- C1, witness: the amended statement at `q = 80` with the default
parameters. -/
theorem c1_witness :
    crf 80 = 51 - ((80 * 51) / 100 : ℕ)
      ∧ (0 ≤ crf 80 ∧ crf 80 ≤ 51)
      ∧ crf 100 = 0 ∧ crf 1 = 51 ∧ crf 80 = 11
      ∧ ["-crf", toString (crf defaultParams.videoQuality)] <:+: processArgs defaultParams r0 :=
  c1_quality_to_compression 80 (by decide) (by decide) defaultParams r0

/-- C2 (confirmed): for a draw `r ∈ [0,1)`, `getRandomValue` lands in
`[min, max)` when `min ≤ max` (strictly below `max` when `min < max`), and
returns exactly the constant when `min = max`. -/
theorem c2_sampler_bounds (r lo hi : ℚ) (h0 : 0 ≤ r) (h1 : r < 1) :
    (lo ≤ hi → lo ≤ getRandomValue r lo hi)
      ∧ (lo < hi → getRandomValue r lo hi < hi)
      ∧ (lo = hi → getRandomValue r lo hi = lo) := by
  unfold getRandomValue
  refine ⟨fun h => ?_, fun h => ?_, fun h => ?_⟩
  · nlinarith
  · nlinarith
  · rw [h]; ring

/-- C2, witness at `r = 1/2`, `min = 0`, `max = 1`. -/
theorem c2_witness :
    ((0 : ℚ) ≤ 1 → (0 : ℚ) ≤ getRandomValue (1/2) 0 1)
      ∧ ((0 : ℚ) < 1 → getRandomValue (1/2) 0 1 < 1)
      ∧ ((0 : ℚ) = 1 → getRandomValue (1/2) 0 1 = 0) :=
  c2_sampler_bounds (1/2) 0 1 (by norm_num) (by norm_num)

/-- C10 (confirmed): on an inverted range (`max < min`) the sampler still
returns a value, in the half-open interval `(max, min]` — in particular
`max ≤ v ≤ min` as claimed. -/
theorem c10_inverted_interval (r lo hi : ℚ) (h0 : 0 ≤ r) (h1 : r < 1)
    (hinv : hi < lo) :
    hi < getRandomValue r lo hi ∧ getRandomValue r lo hi ≤ lo := by
  unfold getRandomValue
  constructor <;> nlinarith

/-- C10, witness at `r = 1/2`, `min = 1`, `max = 0`. -/
theorem c10_witness :
    (0 : ℚ) < getRandomValue (1/2) 1 0 ∧ getRandomValue (1/2) 1 0 ≤ 1 :=
  c10_inverted_interval (1/2) 1 0 (by norm_num) (by norm_num) (by norm_num)

/-- C7 (confirmed): the capability getter is a pure read — two consecutive
reads with no intervening state change return the same
`{ffmpeg, webcodecs, canvas}` triple — and its `canvas` component is `true`
in every engine state. -/
theorem c7_capability_idempotent (st : EngineState) :
    (readCapabilities (readCapabilities st).2).1 = (readCapabilities st).1
      ∧ (capabilities st).canvas = true :=
  ⟨rfl, rfl⟩

/-- C3 (corrected, restricted to the enhanced builder `buildFilterChain`): an
enabled zoom with `min = max = 0` samples a zero magnitude and emits no scale
directive and no audit entry — the whole chain is exactly the chain with zoom
disabled.  (The legacy `buildFilterString` violates this; see the
counterexample.) -/
theorem c3_zero_zoom_no_directive (p : VideoProcessingParameters) (r : Randoms)
    (he : p.zoom.enabled = true) (hmin : p.zoom.min = 0) (hmax : p.zoom.max = 0) :
    buildFilterChain p r = buildFilterChain (disableZoom p) r
      ∧ zoomFilters p r = [] ∧ zoomApplied p r = [] := by
  have hz : zoomValue p r = 0 := by
    unfold zoomValue getRandomValue
    rw [hmin, hmax]; ring
  refine ⟨?_, ?_, ?_⟩
  · simp [buildFilterChain, disableZoom, colorFilters, eqParams, noiseFilters,
      noiseApplied, noiseStrength, rotationFilters, rotationApplied, flipFilters,
      zoomFilters, zoomApplied, pixelShiftFilters, pixelShiftApplied, shiftPixels,
      vignetteFilters, vignetteApplied, waveformFilters, waveformApplied, waveShift,
      randomPixelSizeFilters, randomPixelSizeApplied, speedFilters, speedApplied,
      framerateFilters, framerateApplied, satValue, contrastValue, brightnessValue,
      gammaValue, noiseValue, rotationValue, zoomValue, shiftValue, vignetteValue,
      waveValue, speedValue, fpsValue, hz, hmin, hmax, getRandomValue]
  · simp [zoomFilters, hz]
  · simp [zoomApplied, hz]

/-- C3, counterexample to the claim over the legacy builder
`VideoProcessor.buildFilterString` (also cited by the claim): with zoom
enabled and `min = max = 0` it emits a unit `scale` directive. -/
theorem c3_counterexample :
    legacyFilters zeroZoomParams r0 = ["scale=iw*1.00:ih*1.00"]
      ∧ buildFilterString zeroZoomParams r0 = "scale=iw*1.00:ih*1.00" := by
  with_unfolding_all decide

/-- C3, witness: the amended statement at the concrete zero-width zoom
parameters. -/
theorem c3_witness :
    buildFilterChain zeroZoomParams r0 = buildFilterChain (disableZoom zeroZoomParams) r0
      ∧ zoomFilters zeroZoomParams r0 = [] ∧ zoomApplied zeroZoomParams r0 = [] :=
  c3_zero_zoom_no_directive zeroZoomParams r0 (by with_unfolding_all rfl)
    (by with_unfolding_all rfl) (by with_unfolding_all rfl)

/-- C4 (corrected, restricted to the enhanced builder `buildFilterChain`):
the directive list is the concatenation, in this fixed order, of the merged
color `eq` block, then the fired noise, rotation, horizontal-flip, zoom/scale,
pixel-shift crop, vignette, waveform-shift, random-aspect resize, speed
retime and frame-rate retime directives; the color block is a single
directive, present exactly when at least one of saturation / contrast /
brightness / gamma is enabled.  (The legacy `buildFilterString` does not
merge the color sliders; see the counterexample.) -/
theorem c4_directive_order (p : VideoProcessingParameters) (r : Randoms) :
    (buildFilterChain p r).1
        = colorFilters p r ++ noiseFilters p r ++ rotationFilters p r ++ flipFilters p
            ++ zoomFilters p r ++ pixelShiftFilters p r ++ vignetteFilters p r
            ++ waveformFilters p r ++ randomPixelSizeFilters p r ++ speedFilters p r
            ++ framerateFilters p r
      ∧ (colorFilters p r ≠ []
          ↔ (p.saturation.enabled = true ∨ p.contrast.enabled = true
              ∨ p.brightness.enabled = true ∨ p.gamma.enabled = true))
      ∧ (colorFilters p r).length ≤ 1 := by
  refine ⟨rfl, ?_, ?_⟩
  · rw [← eqParams_ne_nil_iff p r]
    unfold colorFilters
    by_cases h : eqParams p r = [] <;> simp [h]
  · unfold colorFilters
    by_cases h : eqParams p r = [] <;> simp [h]

/-- C4, counterexample to the claim over the legacy builder
`VideoProcessor.buildFilterString` (also cited by the claim): two enabled
color sliders produce two separate `eq=` directives, not one merged
color-adjust directive. -/
theorem c4_counterexample :
    legacyFilters twoColorParams r0 = ["eq=saturation=1.00", "eq=contrast=2.00"]
      ∧ (legacyFilters twoColorParams r0).length = 2 := by
  with_unfolding_all decide

/-- C9 (corrected): fired directives of the enhanced builder encode the
sampled value with the documented fixed precision — color values via
`toFixed 3`, rotation via degrees `toFixed 2` in the audit entry and radians
`toFixed 4` in the engine directive — and two sampled values yield distinct
directives whenever their fixed-precision renderings differ.  (Sampled values
that round to the same rendering — and all vignette magnitudes, whose engine
directive is constant — yield identical directives; see the
counterexample.) -/
theorem c9_fixed_precision (p : VideoProcessingParameters) (r : Randoms) (v w : ℚ)
    (hs : p.saturation.enabled = true) (hr : p.rotation.enabled = true) :
    (eqParams p r).head? = some ("saturation=" ++ toFixed 3 (satValue p r))
      ∧ rotationFilters p r = ["rotate=" ++ toFixed 4 (rotationValue p r * jsPI / 180)]
      ∧ rotationApplied p r = ["rotate=" ++ toFixed 2 (rotationValue p r) ++ "°"]
      ∧ (toFixed 3 v ≠ toFixed 3 w
          → "saturation=" ++ toFixed 3 v ≠ "saturation=" ++ toFixed 3 w)
      ∧ (toFixed 4 v ≠ toFixed 4 w
          → "rotate=" ++ toFixed 4 v ≠ "rotate=" ++ toFixed 4 w) := by
  refine ⟨?_, ?_, ?_, fun hne heq => hne (string_append_left_cancel heq),
    fun hne heq => hne (string_append_left_cancel heq)⟩
  · unfold eqParams
    rw [hs]
    simp
  · unfold rotationFilters
    rw [hr]
    simp
  · unfold rotationApplied
    rw [hr]
    simp

/-- C9, counterexample to the claim as stated: two distinct sampled
saturation values (`0.0001` and `0.0002`) and two distinct sampled vignette
magnitudes produce the identical directive list. -/
theorem c9_counterexample :
    satValue satVigParams rSatA ≠ satValue satVigParams rSatB
      ∧ vignetteValue satVigParams rSatA ≠ vignetteValue satVigParams rSatB
      ∧ (buildFilterChain satVigParams rSatA).1 = (buildFilterChain satVigParams rSatB).1 := by
  with_unfolding_all decide

/-- C9, witness: the amended statement with saturation and rotation enabled
and the probe values `v = 0`, `w = 1`. -/
theorem c9_witness :
    (eqParams satRotParams r0).head? = some ("saturation=" ++ toFixed 3 (satValue satRotParams r0))
      ∧ rotationFilters satRotParams r0
          = ["rotate=" ++ toFixed 4 (rotationValue satRotParams r0 * jsPI / 180)]
      ∧ rotationApplied satRotParams r0
          = ["rotate=" ++ toFixed 2 (rotationValue satRotParams r0) ++ "°"]
      ∧ (toFixed 3 (0 : ℚ) ≠ toFixed 3 (1 : ℚ)
          → "saturation=" ++ toFixed 3 (0 : ℚ) ≠ "saturation=" ++ toFixed 3 (1 : ℚ))
      ∧ (toFixed 4 (0 : ℚ) ≠ toFixed 4 (1 : ℚ)
          → "rotate=" ++ toFixed 4 (0 : ℚ) ≠ "rotate=" ++ toFixed 4 (1 : ℚ)) :=
  c9_fixed_precision satRotParams r0 0 1 (by with_unfolding_all rfl)
    (by with_unfolding_all rfl)

/-- C8 (confirmed): with the full engine unavailable and no platform codec
support (the canvas tier), one requested variation yields exactly one result,
carrying the `canvas-fallback` marker and the input's byte size
(pass-through). -/
theorem c8_canvas_passthrough (file : VFile) (p : VideoProcessingParameters)
    (execs : ℕ → Except Err ℕ) (rs : ℕ → Randoms) (events : ℕ → List ℚ) :
    ∃ res, (generateVariations canvasOnlyState file p execs rs events 1).1 = Except.ok [res]
      ∧ "canvas-fallback" ∈ res.applied_filters
      ∧ res.size = file.size := by
  refine ⟨processWithCanvas file, ?_, ?_, rfl⟩
  · simp [generateVariations, genFrom, processVideo, canvasOnlyState, Except.map]
  · simp [processWithCanvas]

/-- C5 (corrected): when no iteration fails, `generateVariations` returns
exactly `n` results in invocation order, and the progress trace is the
in-order concatenation of the per-iteration `iterationTrace` blocks.  But
because every loaded-path `processVideo` call registers a `'progress'`
listener on the shared engine that is never removed, each engine tick of
iteration `i` invokes the callback once per registered listener, with
variation indices `1, 2, …, i + 1` in that order: every delivered index is
1-based and bounded by the current iteration's `i + 1` (and indices ascend
within a tick), but the full index sequence of the call is not monotonically
non-decreasing (see the counterexample). -/
theorem c5_ordered_variations (st : EngineState) (file : VFile)
    (p : VideoProcessingParameters) (execs : ℕ → Except Err ℕ)
    (rs : ℕ → Randoms) (events : ℕ → List ℚ) (n : ℕ) (f : ℕ → ProcessingResult)
    (i₀ : ℕ) (pr₀ : ℚ) (x₀ : ℕ × ℚ)
    (hn : 1 ≤ n)
    (h : ∀ j, j < n → processVideo st (execs j) file p (rs j) = Except.ok (f j))
    (hx : x₀ ∈ iterationTrace st events i₀) :
    generateVariations st file p execs rs events n
        = (Except.ok ((List.range n).map f),
           ((List.range n).map (iterationTrace st events)).flatten)
      ∧ ((List.range n).map f).length = n
      ∧ (progressTick i₀ pr₀).map Prod.fst = (List.range (i₀ + 1)).map (fun j => j + 1)
      ∧ List.Pairwise (fun a b : ℕ × ℚ => a.1 ≤ b.1) (progressTick i₀ pr₀)
      ∧ (1 ≤ x₀.1 ∧ x₀.1 ≤ i₀ + 1) := by
  have hg := genFrom_ok_eq st file p execs rs events f n 0
    (fun j hj => by simpa using h j hj)
  have e1 : (List.range n).map (fun j => f (0 + j)) = (List.range n).map f :=
    List.map_congr_left (fun a _ => congrArg f (by omega))
  have e2 : (List.range n).map (fun j => iterationTrace st events (0 + j))
      = (List.range n).map (iterationTrace st events) :=
    List.map_congr_left (fun a _ => by rw [Nat.zero_add])
  rw [e1, e2] at hg
  refine ⟨hg, by simp, ?_, ?_, ?_⟩
  · rw [progressTick, List.map_map]
    rfl
  · rw [progressTick, List.pairwise_map]
    exact (List.pairwise_lt_range (i₀ + 1)).imp (fun hab => by omega)
  · cases hld : st.isLoaded with
    | false =>
      rw [iterationTrace, hld] at hx
      simp at hx
    | true =>
      rw [iterationTrace, hld] at hx
      simp only [if_true] at hx
      obtain ⟨l, hl, hxl⟩ := List.mem_flatten.mp hx
      obtain ⟨pr, _, rfl⟩ := List.mem_map.mp hl
      obtain ⟨j, hj, rfl⟩ := List.mem_map.mp hxl
      have := List.mem_range.mp hj
      constructor <;> simp <;> omega

/-- C5, counterexample to the claim as stated: two loaded-path variations
with three engine ticks each make the callback's variation-index sequence
`1,1,1,1,2,1,2,1,2` — iteration 1's ticks also fire iteration 0's stale
listener — which is not monotonically non-decreasing. -/
theorem c5_counterexample :
    ¬ List.Pairwise (fun a b : ℕ × ℚ => a.1 ≤ b.1)
        (generateVariations loadedState sampleFile defaultParams okExecs
            constRandoms sampleEvents 2).2
      ∧ (generateVariations loadedState sampleFile defaultParams okExecs
            constRandoms sampleEvents 2).2
          = [(1, 0), (1, 50), (1, 100), (1, 0), (2, 0), (1, 50), (2, 50), (1, 100), (2, 100)] := by
  with_unfolding_all decide

/-- C5, witness: two loaded-path variations, every iteration succeeding with
the same 42-byte output; the probe tick is iteration 1's, and the probe
trace entry is the stale index-1 invocation made during iteration 1. -/
theorem c5_witness :
    generateVariations loadedState sampleFile defaultParams okExecs
        constRandoms sampleEvents 2
        = (Except.ok ((List.range 2).map (fun _ => sampleLoadedResult)),
           ((List.range 2).map (iterationTrace loadedState sampleEvents)).flatten)
      ∧ ((List.range 2).map (fun _ => sampleLoadedResult)).length = 2
      ∧ (progressTick 1 (1/2)).map Prod.fst = (List.range 2).map (fun j => j + 1)
      ∧ List.Pairwise (fun a b : ℕ × ℚ => a.1 ≤ b.1) (progressTick 1 (1/2))
      ∧ (1 ≤ ((1 : ℕ), (0 : ℚ)).1 ∧ ((1 : ℕ), (0 : ℚ)).1 ≤ 1 + 1) :=
  c5_ordered_variations loadedState sampleFile defaultParams okExecs
    constRandoms sampleEvents 2 (fun _ => sampleLoadedResult) 1 (1/2) (1, 0)
    (by decide) (fun j hj => rfl) (by with_unfolding_all decide)

/-- C6 (confirmed): if iteration `k` of a single-item `generateVariations`
call rejects (after `k` successes), the whole call resolves to that error and
no partial result list is returned; in batch mode, with pairwise-distinct
queue-item ids, each item's final state is decided solely by its own
outcome — a failing item ends with status `error` while every other queued
item is still processed and completes (or fails) according to its own
outcome. -/
theorem c6_failure_isolation (st : EngineState) (file : VFile)
    (p : VideoProcessingParameters) (execs : ℕ → Except Err ℕ)
    (rs : ℕ → Randoms) (events : ℕ → List ℚ) (n k : ℕ) (e : Err)
    (nvars : ℕ) (outcomes : ℕ → Except Err (List ℕ)) (queue : List QueueItem)
    (idx : ℕ) (q₀ : QueueItem)
    (hk : k < n)
    (hok : ∀ j, j < k → ∃ res, processVideo st (execs j) file p (rs j) = Except.ok res)
    (herr : processVideo st (execs k) file p (rs k) = Except.error e)
    (hnd : (queue.map QueueItem.id).Nodup)
    (hget : queue[idx]? = some q₀) :
    (generateVariations st file p execs rs events n).1 = Except.error e
      ∧ (processQueue true nvars outcomes queue)[idx]?
          = some (applyOutcome (outcomes idx) q₀)
      ∧ (applyOutcome (outcomes idx) q₀).id = q₀.id
      ∧ (applyOutcome (outcomes idx) q₀).status
          = (match outcomes idx with
             | Except.ok _ => QueueStatus.completed
             | Except.error _ => QueueStatus.error)
      ∧ (applyOutcome (outcomes idx) q₀).variations
          = (match outcomes idx with
             | Except.ok vs => vs
             | Except.error _ => q₀.variations) := by
  refine ⟨?_, ?_, applyOutcome_id _ _, ?_, ?_⟩
  · exact genFrom_error_eq st file p execs rs events e k n 0
      (fun j hj => by simpa using hok j hj) (by simpa using herr) hk
  · unfold processQueue
    rw [processQueueFrom_true_eq, List.getElem?_map, hget, Option.map_some']
    rw [applyAll_eval outcomes queue idx 0 q₀ q₀ hnd hget rfl, Nat.zero_add]
  · cases houtcome : outcomes idx <;> simp [applyOutcome]
  · cases houtcome : outcomes idx <;> simp [applyOutcome]

/-- C6, witness: a two-iteration job whose first iteration rejects with
`"boom"`, and a two-item batch queue whose first item's outcome rejects while
the second succeeds. -/
theorem c6_witness :
    (generateVariations loadedState sampleFile defaultParams failingExecs
        constRandoms sampleEvents 1).1 = Except.error "boom"
      ∧ (processQueue true 3 sampleOutcomes sampleQueue)[0]?
          = some (applyOutcome (sampleOutcomes 0)
              { id := "a", fileSize := 10, status := QueueStatus.pending,
                progress := 0, variations := [] })
      ∧ (applyOutcome (sampleOutcomes 0)
            { id := "a", fileSize := 10, status := QueueStatus.pending,
              progress := 0, variations := [] }).id
          = ({ id := "a", fileSize := 10, status := QueueStatus.pending,
               progress := 0, variations := [] } : QueueItem).id
      ∧ (applyOutcome (sampleOutcomes 0)
            { id := "a", fileSize := 10, status := QueueStatus.pending,
              progress := 0, variations := [] }).status
          = (match sampleOutcomes 0 with
             | Except.ok _ => QueueStatus.completed
             | Except.error _ => QueueStatus.error)
      ∧ (applyOutcome (sampleOutcomes 0)
            { id := "a", fileSize := 10, status := QueueStatus.pending,
              progress := 0, variations := [] }).variations
          = (match sampleOutcomes 0 with
             | Except.ok vs => vs
             | Except.error _ =>
                 ({ id := "a", fileSize := 10, status := QueueStatus.pending,
                    progress := 0, variations := [] } : QueueItem).variations) :=
  c6_failure_isolation loadedState sampleFile defaultParams failingExecs
    constRandoms sampleEvents 1 0 "boom" 3 sampleOutcomes sampleQueue 0
    { id := "a", fileSize := 10, status := QueueStatus.pending,
      progress := 0, variations := [] }
    (by decide) (fun j hj => absurd hj (by omega)) rfl
    (by with_unfolding_all decide) rfl

